import Mathlib

/-
Verification of the fraud-analysis pipeline of the backend
(`fraud_engine.py` and the transaction/alert endpoints of `server.py`).

Floats are modelled as rationals (ℚ).  A `datetime` value is modelled as a
`Time`: its absolute position on the time line (`seconds`, used for the
store's timestamp-window queries) together with its hour-of-day component
(`hour`, the `.hour` attribute used by the time rule).  A dictionary field
obtained with `.get(key)` (no default) is modelled as an `Option`; a Python
exception raised inside a rule check is modelled as the `Except.error`
branch of that check.
-/

namespace Fraud

/-- A timestamp as the engine observes it: absolute seconds for ordering,
plus the hour-of-day component exposed by `datetime.hour`. -/
structure Time where
  seconds : ℚ
  hour : ℕ
deriving DecidableEq

/-- A stored transaction document (the `Transaction` model of `server.py`,
after `model_dump`).  `timestamp` is an `Option` because `transaction.get("timestamp")`
can be absent, in which case the time rule raises. -/
structure Txn where
  id : String
  user_id : String
  amount : ℚ
  merchant : String
  location : String
  card_type : String
  device_id : String
  timestamp : Option Time
deriving DecidableEq

/-- A fraud rule as `FraudRule.__init__` reads it from a rule document:
`rule_type`, `condition` and `threshold` come from `dict.get` with no
default (so may be absent), `weight` defaults to `0.5` and `active` to
`True` at construction time. -/
structure FraudRule where
  id : String
  name : String
  rule_type : Option String
  condition : Option String
  threshold : Option ℚ
  weight : ℚ := 1/2
  active : Bool := true
deriving DecidableEq

/-- The per-analysis context built by `FraudEngine.get_transaction_context`. -/
structure Ctx where
  recent_transaction_count : ℕ
  user_locations : List String
  suspicious_merchants : List String
deriving DecidableEq

/-- `FraudRule._check_amount`.  When `condition == "greater_than"` holds and
`threshold` is absent (`None`), the comparison `amount > None` raises a
`TypeError`, modelled as `.error`. -/
def FraudRule.checkAmount (r : FraudRule) (t : Txn) : Except Unit (Bool × ℚ) :=
  if r.condition = some "greater_than" then
    match r.threshold with
    | none => .error ()
    | some th => if th < t.amount then .ok (true, r.weight) else .ok (false, 0)
  else .ok (false, 0)

/-- `FraudRule._check_velocity`: compares the context's
`recent_transaction_count` (default 0 is irrelevant here, the field is
always present) against the threshold; an absent threshold raises. -/
def FraudRule.checkVelocity (r : FraudRule) (c : Ctx) : Except Unit (Bool × ℚ) :=
  match r.threshold with
  | none => .error ()
  | some th => if th < (c.recent_transaction_count : ℚ) then .ok (true, r.weight)
               else .ok (false, 0)

/-- `FraudRule._check_location`: `if location and location not in user_locations`
(a Python string is truthy exactly when non-empty). -/
def FraudRule.checkLocation (r : FraudRule) (t : Txn) (c : Ctx) : Except Unit (Bool × ℚ) :=
  if t.location ≠ "" ∧ t.location ∉ c.user_locations then .ok (true, r.weight * (7/10))
  else .ok (false, 0)

/-- `FraudRule._check_merchant`. -/
def FraudRule.checkMerchant (r : FraudRule) (t : Txn) (c : Ctx) : Except Unit (Bool × ℚ) :=
  if t.merchant ∈ c.suspicious_merchants then .ok (true, r.weight)
  else .ok (false, 0)

/-- `FraudRule._check_time`: reads `timestamp.hour`; an absent timestamp
raises (`None.hour`).  `hour >= 0` is vacuous for a `datetime` hour. -/
def FraudRule.checkTime (r : FraudRule) (t : Txn) : Except Unit (Bool × ℚ) :=
  match t.timestamp with
  | none => .error ()
  | some ts => if ts.hour < 5 then .ok (true, r.weight * (6/10)) else .ok (false, 0)

/-- The `try/except` wrapper of `FraudRule.evaluate`: a raised exception is
logged and turned into `(False, 0.0)`. -/
def catchEval (e : Except Unit (Bool × ℚ)) : Bool × ℚ :=
  match e with
  | .ok p => p
  | .error _ => (false, 0)

/-- `FraudRule.evaluate`: inactive rules short-circuit to `(False, 0.0)`;
otherwise dispatch on `rule_type` through the `elif` chain, any unknown or
absent type falling through to `(False, 0.0)`. -/
def FraudRule.evaluate (r : FraudRule) (t : Txn) (c : Ctx) : Bool × ℚ :=
  if r.active = false then (false, 0)
  else if r.rule_type = some "amount" then catchEval (r.checkAmount t)
  else if r.rule_type = some "velocity" then catchEval (r.checkVelocity c)
  else if r.rule_type = some "location" then catchEval (r.checkLocation t c)
  else if r.rule_type = some "merchant" then catchEval (r.checkMerchant t c)
  else if r.rule_type = some "time" then catchEval (r.checkTime t)
  else (false, 0)

/-- One iteration of the accumulation loop of
`FraudEngine.calculate_rule_score`. -/
def scoreFold (t : Txn) (c : Ctx) (acc : ℚ × List String) (r : FraudRule) : ℚ × List String :=
  let p := r.evaluate t c
  if p.1 then (acc.1 + p.2, acc.2 ++ [r.name]) else acc

/-- `FraudEngine.calculate_rule_score`: sum the contributions of violated
rules in order, collect their names, and clamp the sum with
`min(total_score, 1.0)`. -/
def calculateRuleScore (rules : List FraudRule) (t : Txn) (c : Ctx) : ℚ × List String :=
  let folded := rules.foldl (scoreFold t c) (0, [])
  (min folded.1 1, folded.2)

/-- The outcome of the external model call in
`FraudEngine.calculate_ai_score`: either the service answered and its
stripped text parsed as a float (`response (some v)`) or failed to parse
(`response none`), or the call timed out, or the service errored. -/
inductive ScorerResult where
  | response (parsed : Option ℚ)
  | timeout
  | serviceError
deriving DecidableEq

/-- `FraudEngine.calculate_ai_score`: a parsed response is clamped with
`max(0.0, min(1.0, score))`; a parse failure, timeout or service error is
caught by the `except` clause and yields `0.0`. -/
def calculateAiScore (r : ScorerResult) : ℚ :=
  match r with
  | .response (some v) => max 0 (min 1 v)
  | .response none => 0
  | .timeout => 0
  | .serviceError => 0

/-- `FraudEngine._get_risk_level`. -/
def getRiskLevel (score : ℚ) : String :=
  if 8/10 ≤ score then "CRITICAL"
  else if 6/10 ≤ score then "HIGH"
  else if 4/10 ≤ score then "MEDIUM"
  else if 2/10 ≤ score then "LOW"
  else "SAFE"

/-- The score combination of `FraudEngine.analyze_transaction`:
`total_score = (rule_score * 0.4) + (ai_score * 0.6)`. -/
def combineScore (rule_score ai_score : ℚ) : ℚ :=
  rule_score * (4/10) + ai_score * (6/10)

/-- The membership test of the mongo query
`{"user_id": user_id, "timestamp": {"$gte": one_hour_ago.isoformat()}}`
used by `get_transaction_context` (a document with no timestamp does not
match a `$gte` filter). -/
def recentTxnFilter (uid : String) (cutoff : ℚ) (t : Txn) : Bool :=
  t.user_id == uid &&
    (match t.timestamp with
     | some ts => decide (cutoff ≤ ts.seconds)
     | none => false)

/-- The mongo `distinct("location", {"user_id": user_id})` query of
`get_transaction_context`: the distinct location values of the user's
stored transactions. -/
def distinctLocations (store : List Txn) (uid : String) : List String :=
  ((store.filter (fun t => t.user_id == uid)).map Txn.location).dedup

/-- `FraudEngine.get_transaction_context`.  `now` is the wall-clock reading
`datetime.now(timezone.utc)` taken inside this function; the window cutoff
is `now - timedelta(hours=1)`, i.e. `now - 3600` seconds.  The distinct
location list is truncated with `user_locations[:10]`. -/
def getTransactionContext (store : List Txn) (uid : String) (now : ℚ) : Ctx :=
  { recent_transaction_count := (store.filter (recentTxnFilter uid (now - 3600))).length
    user_locations := (distinctLocations store uid).take 10
    suspicious_merchants := ["SUSPICIOUS_MERCHANT_X", "FRAUD_SHOP"] }

/-- The analysis result dictionary returned by
`FraudEngine.analyze_transaction`. -/
structure Analysis where
  rule_score : ℚ
  ai_score : ℚ
  total_score : ℚ
  violated_rules : List String
  risk_level : String
deriving DecidableEq

/-- `FraudEngine.analyze_transaction`: build the context from the store and
the transaction's `user_id`, compute the rule score and the model score,
combine them and classify.  `rules` is the active rule set the engine
fetches, `scorer` the outcome of the external model call. -/
def analyzeTransaction (rules : List FraudRule) (store : List Txn) (t : Txn) (now : ℚ)
    (scorer : ScorerResult) : Analysis :=
  let ctx := getTransactionContext store t.user_id now
  let rs := calculateRuleScore rules t ctx
  let ai := calculateAiScore scorer
  let total := combineScore rs.1 ai
  { rule_score := rs.1
    ai_score := ai
    total_score := total
    violated_rules := rs.2
    risk_level := getRiskLevel total }

/-- An alert document (the `Alert` model of `server.py`; the generated uuid
is not modelled).  Defaults mirror the model: `status = "pending"`,
`resolved_at = None`, `notes = None`. -/
structure Alert where
  transaction_id : String
  user_id : String
  total_score : ℚ
  rule_score : ℚ
  ai_score : ℚ
  risk_level : String
  violated_rules : List String
  status : String := "pending"
  created_at : ℚ
  resolved_at : Option ℚ := none
  notes : Option String := none
deriving DecidableEq

/-- The `AlertUpdate` request body: optional new status, optional notes. -/
structure AlertUpdate where
  status : Option String
  notes : Option String
deriving DecidableEq

/-- The `update_alert` endpoint applied to a stored alert: `$set` the
non-`None` fields of the update, and when the requested status is
`resolved` or `false_positive` also `$set` `resolved_at` to the current
wall-clock time `now`.  No branch ever clears `resolved_at`. -/
def updateAlert (a : Alert) (u : AlertUpdate) (now : ℚ) : Alert :=
  let a1 := match u.status with
    | some s => { a with status := s }
    | none => a
  let a2 := match u.notes with
    | some n => { a1 with notes := some n }
    | none => a1
  if u.status = some "resolved" ∨ u.status = some "false_positive" then
    { a2 with resolved_at := some now }
  else a2

/-- A sequence of `update_alert` calls, each with the wall-clock time at
which it runs. -/
def applyUpdates (a : Alert) (us : List (AlertUpdate × ℚ)) : Alert :=
  us.foldl (fun st p => updateAlert st p.1 p.2) a

/-- The `create_transaction` endpoint (its fraud-relevant effects): insert
the transaction into the store, analyze it against the post-insert store,
and create a `pending` alert when `analysis["total_score"] >= 0.5`.
Returns the new store, the analysis, and the alert if one was created. -/
def createTransaction (store : List Txn) (rules : List FraudRule) (txn : Txn) (now : ℚ)
    (scorer : ScorerResult) : List Txn × Analysis × Option Alert :=
  let store2 := store ++ [txn]
  let analysis := analyzeTransaction rules store2 txn now scorer
  let alert :=
    if 5/10 ≤ analysis.total_score then
      some { transaction_id := txn.id
             user_id := txn.user_id
             total_score := analysis.total_score
             rule_score := analysis.rule_score
             ai_score := analysis.ai_score
             risk_level := analysis.risk_level
             violated_rules := analysis.violated_rules
             created_at := now }
    else none
  (store2, analysis, alert)

/-- The sum of the contributions of the violated rules, in the spec's
terms: the quantity `S` of which the rule score is `min(S, 1.0)`. -/
def violatedSum (rules : List FraudRule) (t : Txn) (c : Ctx) : ℚ :=
  (rules.map (fun r => if (r.evaluate t c).1 then (r.evaluate t c).2 else 0)).sum

lemma foldl_scoreFold_fst (t : Txn) (c : Ctx) :
    ∀ (rules : List FraudRule) (acc : ℚ × List String),
      (rules.foldl (scoreFold t c) acc).1 = acc.1 + violatedSum rules t c := by
  intro rules
  induction rules with
  | nil => intro acc; simp [violatedSum]
  | cons r rs ih =>
      intro acc
      simp only [List.foldl_cons, ih, violatedSum, List.map_cons, List.sum_cons, scoreFold]
      by_cases h : (r.evaluate t c).1
      · simp only [h, if_true]
        ring
      · simp [h]

/-- C5: for every rule set, transaction and context, the aggregate
rule score equals `min(S, 1.0)` where `S` is the sum of the violated
rules' contributions, and it never exceeds `1.0`. -/
theorem C5_rule_score_is_clamped_sum :
    ∀ (rules : List FraudRule) (t : Txn) (c : Ctx),
      (calculateRuleScore rules t c).1 = min (violatedSum rules t c) 1 ∧
      (calculateRuleScore rules t c).1 ≤ 1 := by
  intro rules t c
  have h := foldl_scoreFold_fst t c rules (0, [])
  constructor
  · simp only [calculateRuleScore, h]
    norm_num
  · simp only [calculateRuleScore, h]
    exact min_le_right _ _

/-- C6: the risk level is determined by inclusive lower bounds at 0.8,
0.6, 0.4 and 0.2: `≥0.8 → CRITICAL`, `[0.6, 0.8) → HIGH`,
`[0.4, 0.6) → MEDIUM`, `[0.2, 0.4) → LOW`, `<0.2 → SAFE`. -/
theorem C6_risk_level_bands :
    (∀ s : ℚ, 8/10 ≤ s → getRiskLevel s = "CRITICAL") ∧
    (∀ s : ℚ, 6/10 ≤ s → s < 8/10 → getRiskLevel s = "HIGH") ∧
    (∀ s : ℚ, 4/10 ≤ s → s < 6/10 → getRiskLevel s = "MEDIUM") ∧
    (∀ s : ℚ, 2/10 ≤ s → s < 4/10 → getRiskLevel s = "LOW") ∧
    (∀ s : ℚ, s < 2/10 → getRiskLevel s = "SAFE") := by
  refine ⟨?_, ?_, ?_, ?_, ?_⟩ <;> intro s h <;> try intro h2
  all_goals unfold getRiskLevel
  all_goals split_ifs <;> first | rfl | linarith

/-- C6, boundary witness: the bands evaluated exactly at 0.8, 0.79999,
0.6, 0.4, 0.2 and 0.1999. -/
theorem C6_risk_level_bands_witness :
    getRiskLevel (8/10) = "CRITICAL" ∧ getRiskLevel (79999/100000) = "HIGH" ∧
    getRiskLevel (6/10) = "HIGH" ∧ getRiskLevel (4/10) = "MEDIUM" ∧
    getRiskLevel (2/10) = "LOW" ∧ getRiskLevel (1999/10000) = "SAFE" :=
  ⟨C6_risk_level_bands.1 (8/10) (by norm_num),
   C6_risk_level_bands.2.1 (79999/100000) (by norm_num) (by norm_num),
   C6_risk_level_bands.2.1 (6/10) (by norm_num) (by norm_num),
   C6_risk_level_bands.2.2.1 (4/10) (by norm_num) (by norm_num),
   C6_risk_level_bands.2.2.2.1 (2/10) (by norm_num) (by norm_num),
   C6_risk_level_bands.2.2.2.2 (1999/10000) (by norm_num)⟩

/-- C7: the combined score of `analyze_transaction` equals
`0.4 × rule_score + 0.6 × ai_score`, and the combination is monotonically
non-decreasing in each argument with the other held fixed. -/
theorem C7_total_score_combination :
    (∀ (rules : List FraudRule) (store : List Txn) (t : Txn) (now : ℚ) (scorer : ScorerResult),
       (analyzeTransaction rules store t now scorer).total_score =
         (4/10) * (analyzeTransaction rules store t now scorer).rule_score +
         (6/10) * (analyzeTransaction rules store t now scorer).ai_score) ∧
    (∀ r a1 a2 : ℚ, a1 ≤ a2 → combineScore r a1 ≤ combineScore r a2) ∧
    (∀ r1 r2 a : ℚ, r1 ≤ r2 → combineScore r1 a ≤ combineScore r2 a) := by
  refine ⟨?_, ?_, ?_⟩
  · intro rules store t now scorer
    simp only [analyzeTransaction, combineScore]
    ring
  · intro r a1 a2 h
    simp only [combineScore]
    linarith
  · intro r1 r2 a h
    simp only [combineScore]
    linarith

/-- A concrete transaction used to instantiate the C7 theorem. -/
def txnC7 : Txn :=
  { id := "t7"
    user_id := "u7"
    amount := 1
    merchant := "m"
    location := "L"
    card_type := "visa"
    device_id := "d"
    timestamp := some ⟨0, 12⟩ }

/-- C7 witness: the pipeline equation at a concrete input, and the two
monotonicity statements at concrete scores. -/
theorem C7_total_score_combination_witness :
    ((analyzeTransaction [] [] txnC7 0 (.response (some (1/2)))).total_score =
      (4/10) * (analyzeTransaction [] [] txnC7 0 (.response (some (1/2)))).rule_score +
      (6/10) * (analyzeTransaction [] [] txnC7 0 (.response (some (1/2)))).ai_score) ∧
    combineScore 0 (1/4) ≤ combineScore 0 (3/4) ∧
    combineScore (1/4) 1 ≤ combineScore (3/4) 1 :=
  ⟨C7_total_score_combination.1 [] [] txnC7 0 (.response (some (1/2))),
   C7_total_score_combination.2.1 0 (1/4) (3/4) (by norm_num),
   C7_total_score_combination.2.2 (1/4) (3/4) 1 (by norm_num)⟩

/-- C4: the model scorer always returns a value in `[0,1]`: a parsed
response is clamped to `[0,1]`, and a parse failure, timeout or service
error yields exactly `0.0`; `analyze_transaction` receives this value as
`ai_score` (the failure is absorbed, never propagated). -/
theorem C4_ai_score_contained :
    (∀ r : ScorerResult, 0 ≤ calculateAiScore r ∧ calculateAiScore r ≤ 1) ∧
    (∀ v : ℚ, calculateAiScore (.response (some v)) = max 0 (min 1 v)) ∧
    calculateAiScore (.response none) = 0 ∧
    calculateAiScore .timeout = 0 ∧
    calculateAiScore .serviceError = 0 ∧
    (∀ (rules : List FraudRule) (store : List Txn) (t : Txn) (now : ℚ) (r : ScorerResult),
       (analyzeTransaction rules store t now r).ai_score = calculateAiScore r) := by
  refine ⟨?_, fun v => rfl, rfl, rfl, rfl, fun rules store t now r => rfl⟩
  intro r
  match r with
  | .response (some v) =>
      refine ⟨le_max_left 0 _, ?_⟩
      exact max_le (by norm_num) (min_le_left 1 v)
  | .response none => exact ⟨le_refl 0, by norm_num [calculateAiScore]⟩
  | .timeout => exact ⟨le_refl 0, by norm_num [calculateAiScore]⟩
  | .serviceError => exact ⟨le_refl 0, by norm_num [calculateAiScore]⟩

/-- A concrete transaction used for the C3 boundary evaluations. -/
def txnC3 : Txn :=
  { id := "t3"
    user_id := "u3"
    amount := 10
    merchant := "m"
    location := "L"
    card_type := "visa"
    device_id := "d"
    timestamp := some ⟨0, 12⟩ }

/-- C3: `create_transaction` creates an alert iff `total_score ≥ 0.5`; a
created alert has status `pending`; with an empty rule set and model
responses `4999/6000` resp. `5/6` the total score is exactly `0.4999`
resp. `0.5`, and only the second produces an alert. -/
theorem C3_alert_iff_threshold :
    (∀ (store : List Txn) (rules : List FraudRule) (txn : Txn) (now : ℚ)
       (scorer : ScorerResult),
       ((createTransaction store rules txn now scorer).2.2).isSome ↔
         5/10 ≤ (createTransaction store rules txn now scorer).2.1.total_score) ∧
    (∀ (store : List Txn) (rules : List FraudRule) (txn : Txn) (now : ℚ)
       (scorer : ScorerResult) (a : Alert),
       (createTransaction store rules txn now scorer).2.2 = some a → a.status = "pending") ∧
    (createTransaction [] [] txnC3 0 (.response (some (4999/6000)))).2.1.total_score
      = 4999/10000 ∧
    (createTransaction [] [] txnC3 0 (.response (some (4999/6000)))).2.2 = none ∧
    (createTransaction [] [] txnC3 0 (.response (some (5/6)))).2.1.total_score = 5/10 ∧
    ((createTransaction [] [] txnC3 0 (.response (some (5/6)))).2.2).isSome = true := by
  have hiff : ∀ (store : List Txn) (rules : List FraudRule) (txn : Txn) (now : ℚ)
      (scorer : ScorerResult),
      ((createTransaction store rules txn now scorer).2.2).isSome ↔
        5/10 ≤ (createTransaction store rules txn now scorer).2.1.total_score := by
    intro store rules txn now scorer
    simp only [createTransaction]
    split_ifs with h <;> simp [h]
  have h1 : (createTransaction [] [] txnC3 0 (.response (some (4999/6000)))).2.1.total_score
      = 4999/10000 := by
    norm_num [createTransaction, analyzeTransaction, calculateRuleScore, calculateAiScore,
      combineScore]
  have h2 : (createTransaction [] [] txnC3 0 (.response (some (5/6)))).2.1.total_score
      = 5/10 := by
    norm_num [createTransaction, analyzeTransaction, calculateRuleScore, calculateAiScore,
      combineScore]
  refine ⟨hiff, ?_, h1, ?_, h2, ?_⟩
  · intro store rules txn now scorer a
    simp only [createTransaction]
    split_ifs with h
    · intro heq
      cases heq
      rfl
    · intro heq
      cases heq
  · rw [← Option.not_isSome_iff_eq_none]
    intro hs
    have hle := (hiff [] [] txnC3 0 (.response (some (4999/6000)))).mp hs
    rw [h1] at hle
    norm_num at hle
  · exact (hiff [] [] txnC3 0 (.response (some (5/6)))).mpr (by simp [h2])

/-- The alert that the concrete C3 run creates. -/
def alertC3 : Alert :=
  { transaction_id := "t3"
    user_id := "u3"
    total_score := 3/5
    rule_score := 0
    ai_score := 1
    risk_level := "HIGH"
    violated_rules := []
    created_at := 0 }

lemma createTransaction_C3_run :
    (createTransaction [] [] txnC3 0 (.response (some 1))).2.2 = some alertC3 := by
  norm_num [createTransaction, analyzeTransaction, calculateRuleScore, calculateAiScore,
    combineScore, getRiskLevel, getTransactionContext, alertC3, recentTxnFilter,
    distinctLocations, scoreFold, txnC3]

/-- C3 witness: a concrete run that creates an alert; the created alert has
status `pending`, and `isSome` agrees with the threshold test. -/
theorem C3_alert_iff_threshold_witness :
    ((createTransaction [] [] txnC3 0 (.response (some 1))).2.2).isSome ∧
    alertC3.status = "pending" :=
  ⟨(C3_alert_iff_threshold.1 [] [] txnC3 0 (.response (some 1))).mpr
     (by norm_num [createTransaction, analyzeTransaction, calculateRuleScore,
       calculateAiScore, combineScore]),
   C3_alert_iff_threshold.2.1 [] [] txnC3 0 (.response (some 1)) alertC3
     createTransaction_C3_run⟩

/-- C8: the per-type evaluation table of active rules.  An amount rule
violates exactly when the condition is `greater_than` and
`amount > threshold` (contribution `weight`); a velocity rule exactly when
`recent_transaction_count > threshold` (contribution `weight`); a location
rule exactly when the location is non-empty and not among the user's
locations (contribution `weight × 0.7`); a merchant rule exactly when the
merchant is on the suspicious list (contribution `weight`); a time rule
exactly when the hour-of-day lies in `[0, 5)` (contribution
`weight × 0.6`). -/
theorem C8_rule_type_table :
    (∀ (r : FraudRule) (t : Txn) (c : Ctx) (th : ℚ), r.active = true →
       r.rule_type = some "amount" → r.threshold = some th →
       r.evaluate t c =
         if r.condition = some "greater_than" ∧ th < t.amount then (true, r.weight)
         else (false, 0)) ∧
    (∀ (r : FraudRule) (t : Txn) (c : Ctx) (th : ℚ), r.active = true →
       r.rule_type = some "velocity" → r.threshold = some th →
       r.evaluate t c =
         if th < (c.recent_transaction_count : ℚ) then (true, r.weight) else (false, 0)) ∧
    (∀ (r : FraudRule) (t : Txn) (c : Ctx), r.active = true →
       r.rule_type = some "location" →
       r.evaluate t c =
         if t.location ≠ "" ∧ t.location ∉ c.user_locations then (true, r.weight * (7/10))
         else (false, 0)) ∧
    (∀ (r : FraudRule) (t : Txn) (c : Ctx), r.active = true →
       r.rule_type = some "merchant" →
       r.evaluate t c =
         if t.merchant ∈ c.suspicious_merchants then (true, r.weight) else (false, 0)) ∧
    (∀ (r : FraudRule) (t : Txn) (c : Ctx) (ts : Time), r.active = true →
       r.rule_type = some "time" → t.timestamp = some ts →
       r.evaluate t c =
         if ts.hour < 5 then (true, r.weight * (6/10)) else (false, 0)) := by
  refine ⟨?_, ?_, ?_, ?_, ?_⟩
  · intro r t c th ha hty hth
    by_cases hc : r.condition = some "greater_than"
    · by_cases hlt : th < t.amount <;>
        simp [FraudRule.evaluate, ha, hty, FraudRule.checkAmount, hth, catchEval, hc, hlt]
    · simp [FraudRule.evaluate, ha, hty, FraudRule.checkAmount, hth, catchEval, hc]
  · intro r t c th ha hty hth
    by_cases hlt : th < (c.recent_transaction_count : ℚ) <;>
      simp [FraudRule.evaluate, ha, hty, FraudRule.checkVelocity, hth, catchEval, hlt]
  · intro r t c ha hty
    by_cases hloc : t.location ≠ "" ∧ t.location ∉ c.user_locations <;>
      simp [FraudRule.evaluate, ha, hty, FraudRule.checkLocation, catchEval, hloc]
  · intro r t c ha hty
    by_cases hm : t.merchant ∈ c.suspicious_merchants <;>
      simp [FraudRule.evaluate, ha, hty, FraudRule.checkMerchant, catchEval, hm]
  · intro r t c ts ha hty hts
    by_cases hh : ts.hour < 5 <;>
      simp [FraudRule.evaluate, ha, hty, FraudRule.checkTime, hts, catchEval, hh]

/-- A transaction whose timestamp has a given hour-of-day, used to
instantiate C8 and C9. -/
def txnHour (h : ℕ) : Txn :=
  { id := "t8"
    user_id := "u8"
    amount := 7320 + 1/10
    merchant := "FRAUD_SHOP"
    location := "Nowhere"
    card_type := "visa"
    device_id := "d"
    timestamp := some ⟨0, h⟩ }

/-- A concrete amount rule (the seeded `High Amount Transaction` rule). -/
def ruleAmountW : FraudRule :=
  { id := "r1"
    name := "High Amount Transaction"
    rule_type := some "amount"
    condition := some "greater_than"
    threshold := some 5000
    weight := 7/10 }

/-- A concrete velocity rule (the seeded `Transaction Velocity Check`). -/
def ruleVelocityW : FraudRule :=
  { id := "r2"
    name := "Transaction Velocity Check"
    rule_type := some "velocity"
    condition := some "greater_than"
    threshold := some 5
    weight := 6/10 }

/-- A concrete location rule. -/
def ruleLocationW : FraudRule :=
  { id := "r3"
    name := "Location Check"
    rule_type := some "location"
    condition := some "not_in"
    threshold := some 0
    weight := 1/2 }

/-- A concrete merchant rule. -/
def ruleMerchantW : FraudRule :=
  { id := "r4"
    name := "Merchant Check"
    rule_type := some "merchant"
    condition := some "in_list"
    threshold := some 0
    weight := 1 }

/-- A concrete time rule (the seeded `Unusual Hours Transaction` rule). -/
def ruleTimeW : FraudRule :=
  { id := "r5"
    name := "Unusual Hours Transaction"
    rule_type := some "time"
    condition := some "equals"
    threshold := some 1
    weight := 4/10 }

/-- A concrete context: 6 recent transactions, one known location, the
static suspicious-merchant denylist. -/
def ctxW : Ctx :=
  { recent_transaction_count := 6
    user_locations := ["Springfield"]
    suspicious_merchants := ["SUSPICIOUS_MERCHANT_X", "FRAUD_SHOP"] }

/-- C8 witness: each rule kind evaluated on concrete data, including the
time-rule boundary hours 0, 4 (violate) and 5, 23 (do not). -/
theorem C8_rule_type_table_witness :
    ruleAmountW.evaluate (txnHour 12) ctxW = (true, 7/10) ∧
    ruleVelocityW.evaluate (txnHour 12) ctxW = (true, 6/10) ∧
    ruleLocationW.evaluate (txnHour 12) ctxW = (true, (1/2) * (7/10)) ∧
    ruleMerchantW.evaluate (txnHour 12) ctxW = (true, 1) ∧
    ruleTimeW.evaluate (txnHour 0) ctxW = (true, (4/10) * (6/10)) ∧
    ruleTimeW.evaluate (txnHour 4) ctxW = (true, (4/10) * (6/10)) ∧
    ruleTimeW.evaluate (txnHour 5) ctxW = (false, 0) ∧
    ruleTimeW.evaluate (txnHour 23) ctxW = (false, 0) :=
  ⟨(C8_rule_type_table.1 ruleAmountW (txnHour 12) ctxW 5000 rfl rfl rfl).trans
     (by norm_num [ruleAmountW, txnHour]),
   (C8_rule_type_table.2.1 ruleVelocityW (txnHour 12) ctxW 5 rfl rfl rfl).trans
     (by norm_num [ruleVelocityW, ctxW]),
   (C8_rule_type_table.2.2.1 ruleLocationW (txnHour 12) ctxW rfl rfl).trans
     (by norm_num [ruleLocationW, txnHour, ctxW]; decide),
   (C8_rule_type_table.2.2.2.1 ruleMerchantW (txnHour 12) ctxW rfl rfl).trans
     (by norm_num [ruleMerchantW, txnHour, ctxW]),
   (C8_rule_type_table.2.2.2.2 ruleTimeW (txnHour 0) ctxW ⟨0, 0⟩ rfl rfl rfl).trans
     (by norm_num [ruleTimeW]),
   (C8_rule_type_table.2.2.2.2 ruleTimeW (txnHour 4) ctxW ⟨0, 4⟩ rfl rfl rfl).trans
     (by norm_num [ruleTimeW]),
   (C8_rule_type_table.2.2.2.2 ruleTimeW (txnHour 5) ctxW ⟨0, 5⟩ rfl rfl rfl).trans
     (by norm_num [ruleTimeW]),
   (C8_rule_type_table.2.2.2.2 ruleTimeW (txnHour 23) ctxW ⟨0, 23⟩ rfl rfl rfl).trans
     (by norm_num [ruleTimeW])⟩

/-- C9: `evaluate` is total and yields `(false, 0.0)` for every inactive
rule (whatever the transaction and context), for every unknown or absent
rule type, and whenever the dispatched check raises (an absent threshold
under an amount comparison, an absent threshold in a velocity rule, an
absent timestamp in a time rule); a failing rule therefore never aborts
the rule-score computation. -/
theorem C9_evaluate_never_aborts :
    (∀ (r : FraudRule) (t : Txn) (c : Ctx), r.active = false →
       r.evaluate t c = (false, 0)) ∧
    (∀ (r : FraudRule) (t : Txn) (c : Ctx) (k : String), r.rule_type = some k →
       k ∉ (["amount", "velocity", "location", "merchant", "time"] : List String) →
       r.evaluate t c = (false, 0)) ∧
    (∀ (r : FraudRule) (t : Txn) (c : Ctx), r.rule_type = none →
       r.evaluate t c = (false, 0)) ∧
    (∀ (r : FraudRule) (t : Txn) (c : Ctx), r.rule_type = some "amount" →
       r.condition = some "greater_than" → r.threshold = none →
       r.evaluate t c = (false, 0)) ∧
    (∀ (r : FraudRule) (t : Txn) (c : Ctx), r.rule_type = some "velocity" →
       r.threshold = none → r.evaluate t c = (false, 0)) ∧
    (∀ (r : FraudRule) (t : Txn) (c : Ctx), r.rule_type = some "time" →
       t.timestamp = none → r.evaluate t c = (false, 0)) := by
  refine ⟨?_, ?_, ?_, ?_, ?_, ?_⟩
  · intro r t c h
    simp [FraudRule.evaluate, h]
  · intro r t c k hty hk
    have h1 : k ≠ "amount" := fun e => hk (by simp [e])
    have h2 : k ≠ "velocity" := fun e => hk (by simp [e])
    have h3 : k ≠ "location" := fun e => hk (by simp [e])
    have h4 : k ≠ "merchant" := fun e => hk (by simp [e])
    have h5 : k ≠ "time" := fun e => hk (by simp [e])
    simp [FraudRule.evaluate, hty, h1, h2, h3, h4, h5]
  · intro r t c hty
    simp [FraudRule.evaluate, hty]
  · intro r t c hty hc hth
    by_cases ha : r.active = false
    · simp [FraudRule.evaluate, ha]
    · simp [FraudRule.evaluate, ha, hty, FraudRule.checkAmount, hc, hth, catchEval]
  · intro r t c hty hth
    by_cases ha : r.active = false
    · simp [FraudRule.evaluate, ha]
    · simp [FraudRule.evaluate, ha, hty, FraudRule.checkVelocity, hth, catchEval]
  · intro r t c hty hts
    by_cases ha : r.active = false
    · simp [FraudRule.evaluate, ha]
    · simp [FraudRule.evaluate, ha, hty, FraudRule.checkTime, hts, catchEval]

/-- An inactive rule, used to instantiate C9. -/
def ruleInactiveW : FraudRule :=
  { id := "r6"
    name := "Disabled"
    rule_type := some "amount"
    condition := some "greater_than"
    threshold := some 1
    weight := 1
    active := false }

/-- A rule of an unknown type, used to instantiate C9. -/
def ruleUnknownW : FraudRule :=
  { id := "r7"
    name := "Future Kind"
    rule_type := some "geo_fence"
    condition := some "greater_than"
    threshold := some 1
    weight := 1 }

/-- A rule whose type field is absent, used to instantiate C9. -/
def ruleNoTypeW : FraudRule :=
  { id := "r8"
    name := "No Type"
    rule_type := none
    condition := none
    threshold := none
    weight := 1 }

/-- An amount rule with no threshold (its comparison raises), used to
instantiate C9. -/
def ruleAmountNoThW : FraudRule :=
  { id := "r9"
    name := "Broken Amount"
    rule_type := some "amount"
    condition := some "greater_than"
    threshold := none
    weight := 1 }

/-- A velocity rule with no threshold (its comparison raises), used to
instantiate C9. -/
def ruleVelocityNoThW : FraudRule :=
  { id := "r10"
    name := "Broken Velocity"
    rule_type := some "velocity"
    condition := none
    threshold := none
    weight := 1 }

/-- A time rule paired below with a timestamp-less transaction, used to
instantiate C9. -/
def ruleTimeNoTsW : FraudRule :=
  { id := "r11"
    name := "Time On Missing Timestamp"
    rule_type := some "time"
    condition := none
    threshold := none
    weight := 1 }

/-- A transaction with no timestamp field. -/
def txnNoTs : Txn :=
  { id := "t9"
    user_id := "u9"
    amount := 1
    merchant := "m"
    location := "L"
    card_type := "visa"
    device_id := "d"
    timestamp := none }

/-- C9 witness: every failure mode evaluated on concrete rules yields
`(false, 0)`. -/
theorem C9_evaluate_never_aborts_witness :
    ruleInactiveW.evaluate txnNoTs ctxW = (false, 0) ∧
    ruleUnknownW.evaluate txnNoTs ctxW = (false, 0) ∧
    ruleNoTypeW.evaluate txnNoTs ctxW = (false, 0) ∧
    ruleAmountNoThW.evaluate txnNoTs ctxW = (false, 0) ∧
    ruleVelocityNoThW.evaluate txnNoTs ctxW = (false, 0) ∧
    ruleTimeNoTsW.evaluate txnNoTs ctxW = (false, 0) :=
  ⟨C9_evaluate_never_aborts.1 ruleInactiveW txnNoTs ctxW rfl,
   C9_evaluate_never_aborts.2.1 ruleUnknownW txnNoTs ctxW "geo_fence" rfl (by decide),
   C9_evaluate_never_aborts.2.2.1 ruleNoTypeW txnNoTs ctxW rfl,
   C9_evaluate_never_aborts.2.2.2.1 ruleAmountNoThW txnNoTs ctxW rfl rfl rfl,
   C9_evaluate_never_aborts.2.2.2.2.1 ruleVelocityNoThW txnNoTs ctxW rfl rfl,
   C9_evaluate_never_aborts.2.2.2.2.2 ruleTimeNoTsW txnNoTs ctxW rfl rfl⟩

/-- C10: `create_transaction` inserts the transaction before the context is
computed, so the distinct-location query sees the transaction's own
location; for a user with at most 10 distinct stored locations the context
therefore contains it, and a location rule never violates through this
pipeline.  The last conjunct ties the context used here to the pipeline:
the analysis `create_transaction` stores is exactly the analysis over the
post-insert store. -/
theorem C10_own_location_never_violates (store : List Txn) (txn : Txn) (now : ℚ)
    (h : (distinctLocations (store ++ [txn]) txn.user_id).length ≤ 10) :
    txn.location ∈ (getTransactionContext (store ++ [txn]) txn.user_id now).user_locations ∧
    (∀ r : FraudRule, r.rule_type = some "location" →
       r.evaluate txn (getTransactionContext (store ++ [txn]) txn.user_id now) = (false, 0)) ∧
    (∀ (rules : List FraudRule) (scorer : ScorerResult),
       (createTransaction store rules txn now scorer).2.1 =
         analyzeTransaction rules (store ++ [txn]) txn now scorer) := by
  have hmem : txn.location ∈ distinctLocations (store ++ [txn]) txn.user_id := by
    unfold distinctLocations
    rw [List.mem_dedup]
    refine List.mem_map.mpr ⟨txn, ?_, rfl⟩
    refine List.mem_filter.mpr ⟨by simp, by simp⟩
  have htake : (getTransactionContext (store ++ [txn]) txn.user_id now).user_locations =
      distinctLocations (store ++ [txn]) txn.user_id := by
    simp only [getTransactionContext]
    exact List.take_of_length_le h
  refine ⟨htake ▸ hmem, ?_, fun rules scorer => rfl⟩
  intro r hty
  by_cases ha : r.active = false
  · simp [FraudRule.evaluate, ha]
  · have hmem2 : txn.location ∈
        (getTransactionContext (store ++ [txn]) txn.user_id now).user_locations :=
      htake ▸ hmem
    simp [FraudRule.evaluate, ha, hty, FraudRule.checkLocation, catchEval, hmem2]

/-- A concrete transaction used to instantiate C10. -/
def txnC10 : Txn :=
  { id := "t10"
    user_id := "u10"
    amount := 20
    merchant := "m"
    location := "Paris"
    card_type := "visa"
    device_id := "d"
    timestamp := some ⟨0, 12⟩ }

/-- C10 witness: a concrete pipeline run whose context contains the
transaction's own location, on which a location rule does not violate. -/
theorem C10_own_location_never_violates_witness :
    txnC10.location ∈
      (getTransactionContext ([] ++ [txnC10]) txnC10.user_id 0).user_locations ∧
    ruleLocationW.evaluate txnC10
      (getTransactionContext ([] ++ [txnC10]) txnC10.user_id 0) = (false, 0) :=
  ⟨(C10_own_location_never_violates [] txnC10 0 (by decide)).1,
   (C10_own_location_never_violates [] txnC10 0 (by decide)).2.1 ruleLocationW rfl⟩

/-- The recent-transaction count as claim C1 words it: the number of the
same user's stored transactions whose timestamp lies within the 1-hour
window trailing the analyzed transaction's own timestamp. -/
def recentCountClaimC1 (store : List Txn) (txn : Txn) : ℕ :=
  (store.filter (fun u => u.user_id == txn.user_id &&
    (match u.timestamp, txn.timestamp with
     | some us, some ts => decide (ts.seconds - 3600 ≤ us.seconds ∧ us.seconds ≤ ts.seconds)
     | _, _ => false))).length

/-- An old transaction analyzed late: its own timestamp is second 0, while
the wall clock at analysis time reads second 10000. -/
def txnC1 : Txn :=
  { id := "t1"
    user_id := "u1"
    amount := 10
    merchant := "m"
    location := "L"
    card_type := "visa"
    device_id := "d"
    timestamp := some ⟨0, 0⟩ }

/-- Two stored transactions of the same user at seconds 9000 and 9500:
inside the wall-clock window `[6400, ∞)`, outside the window `[-3600, 0]`
trailing the analyzed transaction's timestamp. -/
def storeC1 : List Txn :=
  [{ id := "a1"
     user_id := "u1"
     amount := 1
     merchant := "m"
     location := "L"
     card_type := "visa"
     device_id := "d"
     timestamp := some ⟨9000, 2⟩ },
   { id := "a2"
     user_id := "u1"
     amount := 2
     merchant := "m"
     location := "L"
     card_type := "visa"
     device_id := "d"
     timestamp := some ⟨9500, 2⟩ }]

/-- C1 counterexample: with the store the pipeline has after inserting
`txnC1` and a wall clock of 10000, the context counts 2 transactions while
the window trailing the transaction's own timestamp holds only 1 (the
transaction itself); the claim's equality fails. -/
theorem C1_counterexample :
    (getTransactionContext (storeC1 ++ [txnC1]) txnC1.user_id 10000).recent_transaction_count
      = 2 ∧
    recentCountClaimC1 (storeC1 ++ [txnC1]) txnC1 = 1 ∧
    (getTransactionContext (storeC1 ++ [txnC1]) txnC1.user_id 10000).recent_transaction_count
      ≠ recentCountClaimC1 (storeC1 ++ [txnC1]) txnC1 := by
  have h1 : (getTransactionContext (storeC1 ++ [txnC1])
      txnC1.user_id 10000).recent_transaction_count = 2 := by
    norm_num [getTransactionContext, recentTxnFilter, storeC1, txnC1, List.filter]
  have h2 : recentCountClaimC1 (storeC1 ++ [txnC1]) txnC1 = 1 := by
    norm_num [recentCountClaimC1, storeC1, txnC1, List.filter]
  exact ⟨h1, h2, by rw [h1, h2]; decide⟩

/-- The recent-transaction count the code actually computes, worded from
the amended claim: the user's stored transactions whose timestamp is at
most one hour before the wall clock at analysis time (with no upper
bound). -/
def recentCountWallClock (store : List Txn) (uid : String) (now : ℚ) : ℕ :=
  store.countP (fun u => u.user_id == uid &&
    (match u.timestamp with
     | some us => decide (now - 3600 ≤ us.seconds)
     | none => false))

/-- C1 amended: for every store, user and analysis wall-clock time, the
context's recent_transaction_count equals the number of the user's stored
transactions dated at most one hour before the wall clock (the wall clock,
not the transaction's timestamp, is "now", and no upper bound is
applied). -/
theorem C1_recent_count_uses_wall_clock :
    ∀ (store : List Txn) (uid : String) (now : ℚ),
      (getTransactionContext store uid now).recent_transaction_count =
        recentCountWallClock store uid now := by
  intro store uid now
  simp only [getTransactionContext, recentCountWallClock, List.countP_eq_length_filter]
  rfl

/-- The update sequence of the C2 counterexample: resolve the alert at
time 100, then move it back to `investigating` at time 200. -/
def updatesC2 : List (AlertUpdate × ℚ) :=
  [({ status := some "resolved", notes := none }, 100),
   ({ status := some "investigating", notes := none }, 200)]

/-- C2 counterexample: the pipeline creates `alertC3` (see
`createTransaction_C3_run`); resolving it and then setting the status back
to `investigating` leaves `resolved_at` set while the status is outside
`{resolved, false_positive}`, so the claimed "if and only if" fails on this
reachable state. -/
theorem C2_counterexample :
    (createTransaction [] [] txnC3 0 (.response (some 1))).2.2 = some alertC3 ∧
    (applyUpdates alertC3 updatesC2).status = "investigating" ∧
    (applyUpdates alertC3 updatesC2).resolved_at = some 100 ∧
    ¬((applyUpdates alertC3 updatesC2).resolved_at ≠ none ↔
        ((applyUpdates alertC3 updatesC2).status = "resolved" ∨
         (applyUpdates alertC3 updatesC2).status = "false_positive")) :=
  ⟨createTransaction_C3_run, by decide, by decide, by decide⟩

lemma updateAlert_resolved_at_inv (a : Alert) (u : AlertUpdate) (now : ℚ)
    (h : a.status = "resolved" ∨ a.status = "false_positive" → a.resolved_at ≠ none) :
    (updateAlert a u now).status = "resolved" ∨
      (updateAlert a u now).status = "false_positive" →
    (updateAlert a u now).resolved_at ≠ none := by
  unfold updateAlert
  by_cases hc : u.status = some "resolved" ∨ u.status = some "false_positive"
  · simp [hc]
  · rw [if_neg hc]
    push_neg at hc
    cases hs : u.status with
    | none =>
        cases hn : u.notes <;> simpa [hs, hn] using h
    | some s =>
        have hs1 : s ≠ "resolved" := by
          intro e; exact (hc.1 (by rw [hs, e]))
        have hs2 : s ≠ "false_positive" := by
          intro e; exact (hc.2 (by rw [hs, e]))
        cases hn : u.notes <;> simp [hs, hn, hs1, hs2]

lemma applyUpdates_resolved_at_inv :
    ∀ (us : List (AlertUpdate × ℚ)) (a : Alert),
      (a.status = "resolved" ∨ a.status = "false_positive" → a.resolved_at ≠ none) →
      ((applyUpdates a us).status = "resolved" ∨
        (applyUpdates a us).status = "false_positive" →
       (applyUpdates a us).resolved_at ≠ none) := by
  intro us
  induction us with
  | nil => intro a h; simpa [applyUpdates] using h
  | cons p ps ih =>
      intro a h
      have hstep := updateAlert_resolved_at_inv a p.1 p.2 h
      simpa [applyUpdates, List.foldl_cons] using
        ih (updateAlert a p.1 p.2) hstep

/-- C2 amended: on every alert as the emitter creates it (status `pending`,
`resolved_at` null) and after any sequence of status/notes updates,
`resolved_at` is non-null if the status is `resolved` or `false_positive`;
the converse direction of the claimed equivalence does not hold, because no
update ever clears `resolved_at` once it is set. -/
theorem C2_resolved_at_if_resolved (a : Alert) (us : List (AlertUpdate × ℚ))
    (h1 : a.status = "pending") (_h2 : a.resolved_at = none) :
    ((applyUpdates a us).status = "resolved" ∨
      (applyUpdates a us).status = "false_positive") →
    (applyUpdates a us).resolved_at ≠ none := by
  refine applyUpdates_resolved_at_inv us a ?_
  intro hcontra
  rw [h1] at hcontra
  rcases hcontra with e | e <;> exact absurd e (by decide)

/-- C2 witness: the emitter-created alert `alertC3`, resolved by a single
update, has a non-null `resolved_at`. -/
theorem C2_resolved_at_if_resolved_witness :
    (applyUpdates alertC3 [({ status := some "resolved", notes := none }, 50)]).resolved_at
      ≠ none :=
  C2_resolved_at_if_resolved alertC3 [({ status := some "resolved", notes := none }, 50)]
    rfl rfl (by decide)

end Fraud
